import Mathlib

/-!
Shallow embedding of `src/lib/uniqush.js`: a client class holding one base
endpoint string, whose every public method builds one HTTP request from its
arguments, hands it to the `got` transport, and maps the fulfilled response
to its body string.  Stateful JavaScript (the `this` object, the in-place
mutation of the caller's `params` object in `push`) is modelled by explicit
state passing; the asynchronous promise is modelled as `Except ε String`
over an abstract transport `Request → Except ε Response`.
-/

/-- Values a JavaScript caller can place in a request-body field: a string,
a boolean, or `undefined` (an omitted argument). -/
inductive JSVal where
  | str (s : String)
  | bool (b : Bool)
  | undef
  deriving DecidableEq

/-- JavaScript truthiness of a `JSVal`: the empty string, `false` and
`undefined` are falsy; every other value is truthy. -/
def JSVal.truthy : JSVal → Bool
  | .str s => !s.isEmpty
  | .bool b => b
  | .undef => false

/-- The JavaScript expression `a || b`: `a` when `a` is truthy, else `b`
(used by `addAPNs` for `sandbox || false`). -/
def jsOr (a b : JSVal) : JSVal := if a.truthy then a else b

/-- A JavaScript object used as a request body: an association list from
field names to values; lookups take the first binding. -/
abbrev Params := List (String × JSVal)

/-- Property read `obj[key]` on a JavaScript object. -/
def Params.get? : Params → String → Option JSVal
  | [], _ => none
  | (k, v) :: rest, key => if k = key then some v else Params.get? rest key

/-- Property write `obj[key] = v` on a JavaScript object: overwrites an
existing binding in place, or appends a new binding at the end. -/
def Params.set : Params → String → JSVal → Params
  | [], key, v => [(key, v)]
  | (k, w) :: rest, key, v =>
      if k = key then (k, v) :: rest else (k, w) :: Params.set rest key v

/-- Field names of a request body, in order. -/
def Params.keys (p : Params) : List String := p.map Prod.fst

/-- HTTP verb of an outbound request. -/
inductive Verb where
  | GET
  | POST
  deriving DecidableEq

/-- One outbound HTTP request as handed to `got`: verb, full URL, and the
body for POST requests (`none` for body-less GET requests). -/
structure Request where
  verb : Verb
  url : String
  body : Option Params
  deriving DecidableEq

/-- A fulfilled transport response; the client only ever reads `.body`. -/
structure Response where
  body : String
  deriving DecidableEq

/-- The HTTP capability supplied by the environment (`got`): each issued
request either rejects with a transport error of type `ε` or fulfills with
a response. -/
abbrev Transport (ε : Type) := Request → Except ε Response

/-- The client class: holds exactly one attribute, the base endpoint. -/
structure Uniqush where
  endpoint : String
  deriving DecidableEq

/-- `new Uniqush(endpoint)`: stores the endpoint verbatim, with no
validation and no normalization. -/
def Uniqush.new (endpoint : String) : Uniqush := { endpoint := endpoint }

/-- The observable effect of one method call: the outbound requests issued,
in order; the settled promise returned to the caller; and the client object
as the call leaves it (no method of the source assigns to `this`). -/
structure Call (ε : Type) where
  requests : List Request
  result : Except ε String
  self : Uniqush

variable {ε : Type}

/-- `this._post(route, body)`: issues one POST to `endpoint + '/' + route`
carrying `body`; yields the request it issued and the transport's outcome. -/
def Uniqush.hpost (u : Uniqush) (tr : Transport ε) (route : String) (body : Params) :
    Request × Except ε Response :=
  let req : Request := { verb := .POST, url := u.endpoint ++ "/" ++ route, body := some body }
  (req, tr req)

/-- `this._get(route)`: issues one body-less GET to `endpoint + '/' + route`;
yields the request it issued and the transport's outcome. -/
def Uniqush.hget (u : Uniqush) (tr : Transport ε) (route : String) :
    Request × Except ε Response :=
  let req : Request := { verb := .GET, url := u.endpoint ++ "/" ++ route, body := none }
  (req, tr req)

/-- Promise chaining `.then(response => response.body)`: a fulfilled outcome
is mapped to the response body; a rejection passes through unmodified. -/
def thenBody (r : Except ε Response) : Except ε String :=
  r.map Response.body

/-- `get version()`: GET `/version`, resolving with the response body. -/
def Uniqush.version (u : Uniqush) (tr : Transport ε) : Call ε :=
  let pr := u.hget tr "version"
  { requests := [pr.1], result := thenBody pr.2, self := u }

/-- `stop()`: GET `/stop`, resolving with the response body. -/
def Uniqush.stop (u : Uniqush) (tr : Transport ε) : Call ε :=
  let pr := u.hget tr "stop"
  { requests := [pr.1], result := thenBody pr.2, self := u }

/-- `addPSP(params)`: POST `/addpsp` with the caller's mapping as body. -/
def Uniqush.addPSP (u : Uniqush) (tr : Transport ε) (params : Params) : Call ε :=
  let pr := u.hpost tr "addpsp" params
  { requests := [pr.1], result := thenBody pr.2, self := u }

/-- `addGCM(service, projectId, apiKey)`: delegates to `addPSP` with the
object literal of the source, in source order. -/
def Uniqush.addGCM (u : Uniqush) (tr : Transport ε) (service projectId apiKey : JSVal) : Call ε :=
  u.addPSP tr
    [("service", service), ("projectid", projectId), ("apikey", apiKey),
     ("pushservicetype", .str "gcm")]

/-- `addAPNs(service, cert, key, sandbox)`: delegates to `addPSP`; an
omitted `sandbox` argument is JavaScript `undefined`, and the body field is
`sandbox || false`. -/
def Uniqush.addAPNs (u : Uniqush) (tr : Transport ε) (service cert key sandbox : JSVal) : Call ε :=
  u.addPSP tr
    [("service", service), ("pushservicetype", .str "apns"), ("cert", cert),
     ("key", key), ("sandbox", jsOr sandbox (.bool false))]

/-- `addADM(service, clientId, clientSecret)`: delegates to `addPSP`. -/
def Uniqush.addADM (u : Uniqush) (tr : Transport ε) (service clientId clientSecret : JSVal) : Call ε :=
  u.addPSP tr
    [("service", service), ("pushservicetype", .str "adm"), ("clientid", clientId),
     ("clientsecret", clientSecret)]

/-- `rmPSP(params)`: POST `/rmpsp` with the caller's mapping as body. -/
def Uniqush.rmPSP (u : Uniqush) (tr : Transport ε) (params : Params) : Call ε :=
  let pr := u.hpost tr "rmpsp" params
  { requests := [pr.1], result := thenBody pr.2, self := u }

/-- `rmGCM(service, projectId, apiKey)`: delegates to `rmPSP`, in source
order (`apikey` last). -/
def Uniqush.rmGCM (u : Uniqush) (tr : Transport ε) (service projectId apiKey : JSVal) : Call ε :=
  u.rmPSP tr
    [("service", service), ("projectid", projectId), ("pushservicetype", .str "gcm"),
     ("apikey", apiKey)]

/-- `rmAPNs(service, cert, key)`: delegates to `rmPSP`; takes no `sandbox`
argument and builds no `sandbox` field. -/
def Uniqush.rmAPNs (u : Uniqush) (tr : Transport ε) (service cert key : JSVal) : Call ε :=
  u.rmPSP tr
    [("service", service), ("pushservicetype", .str "apns"), ("cert", cert), ("key", key)]

/-- `rmADM(service, clientId, clientSecret)`: delegates to `rmPSP`. -/
def Uniqush.rmADM (u : Uniqush) (tr : Transport ε) (service clientId clientSecret : JSVal) : Call ε :=
  u.rmPSP tr
    [("service", service), ("pushservicetype", .str "adm"), ("clientid", clientId),
     ("clientsecret", clientSecret)]

/-- `subscribe(params)`: POST `/subscribe` with the caller's mapping. -/
def Uniqush.subscribe (u : Uniqush) (tr : Transport ε) (params : Params) : Call ε :=
  let pr := u.hpost tr "subscribe" params
  { requests := [pr.1], result := thenBody pr.2, self := u }

/-- `subscribeGCM(service, subscriber, regId)`: delegates to `subscribe`. -/
def Uniqush.subscribeGCM (u : Uniqush) (tr : Transport ε) (service subscriber regId : JSVal) : Call ε :=
  u.subscribe tr
    [("service", service), ("pushservicetype", .str "gcm"), ("subscriber", subscriber),
     ("regid", regId)]

/-- `subscribeAPNs(service, subscriber, devToken)`: delegates to `subscribe`. -/
def Uniqush.subscribeAPNs (u : Uniqush) (tr : Transport ε) (service subscriber devToken : JSVal) : Call ε :=
  u.subscribe tr
    [("service", service), ("pushservicetype", .str "apns"), ("subscriber", subscriber),
     ("devtoken", devToken)]

/-- `subscribeADM(service, subscriber, regId)`: delegates to `subscribe`. -/
def Uniqush.subscribeADM (u : Uniqush) (tr : Transport ε) (service subscriber regId : JSVal) : Call ε :=
  u.subscribe tr
    [("service", service), ("pushservicetype", .str "adm"), ("subscriber", subscriber),
     ("regid", regId)]

/-- `unsubscribe(params)`: POST `/unsubscribe` with the caller's mapping. -/
def Uniqush.unsubscribe (u : Uniqush) (tr : Transport ε) (params : Params) : Call ε :=
  let pr := u.hpost tr "unsubscribe" params
  { requests := [pr.1], result := thenBody pr.2, self := u }

/-- `unsubscribeGCM(service, subscriber, regId)`: delegates to `unsubscribe`. -/
def Uniqush.unsubscribeGCM (u : Uniqush) (tr : Transport ε) (service subscriber regId : JSVal) : Call ε :=
  u.unsubscribe tr
    [("service", service), ("pushservicetype", .str "gcm"), ("subscriber", subscriber),
     ("regid", regId)]

/-- `unsubscribeAPNs(service, subscriber, devToken)`: delegates to
`unsubscribe`. -/
def Uniqush.unsubscribeAPNs (u : Uniqush) (tr : Transport ε) (service subscriber devToken : JSVal) : Call ε :=
  u.unsubscribe tr
    [("service", service), ("pushservicetype", .str "apns"), ("subscriber", subscriber),
     ("devtoken", devToken)]

/-- `unsubscribeADM(service, subscriber, regId)`: delegates to `unsubscribe`. -/
def Uniqush.unsubscribeADM (u : Uniqush) (tr : Transport ε) (service subscriber regId : JSVal) : Call ε :=
  u.unsubscribe tr
    [("service", service), ("pushservicetype", .str "adm"), ("subscriber", subscriber),
     ("regid", regId)]

/-- Result of a `push` call: the call effect plus the caller's `params`
object as the caller sees it after the call (`push` assigns
`params.service` and `params.subscriber` on the very object the caller
passed, so a supplied object comes back mutated; `none` records that no
object was supplied and the fresh `{}` is invisible to the caller). -/
structure PushResult (ε : Type) where
  call : Call ε
  callerParams : Option Params

/-- `push(service, subscriber, params)`: `params = params || {}`, then
`params.service = service`, `params.subscriber = subscriber`, then POST
`/push` with that object as body. -/
def Uniqush.push (u : Uniqush) (tr : Transport ε) (service subscriber : JSVal)
    (params : Option Params) : PushResult ε :=
  let p := ((params.getD []).set "service" service).set "subscriber" subscriber
  let pr := u.hpost tr "push" p
  { call := { requests := [pr.1], result := thenBody pr.2, self := u },
    callerParams := params.map (fun _ => p) }

/-- The body of a call's first outbound request, when there is one. -/
def Call.reqBody (c : Call ε) : Option Params :=
  c.requests.head?.bind Request.body

/-- Verb and URL of each outbound request of a call, in order. -/
def Call.verbUrls (c : Call ε) : List (Verb × String) :=
  c.requests.map (fun r => (r.verb, r.url))

theorem Params.get_set_self (p : Params) (k : String) (v : JSVal) :
    (p.set k v).get? k = some v := by
  induction p with
  | nil => simp [Params.set, Params.get?]
  | cons head rest ih =>
      obtain ⟨k1, w⟩ := head
      by_cases h : k1 = k <;> simp [Params.set, Params.get?, h, ih]

theorem Params.get_set_other (p : Params) (k key : String) (v : JSVal) (h : k ≠ key) :
    (p.set k v).get? key = p.get? key := by
  induction p with
  | nil => simp [Params.set, Params.get?, h]
  | cons head rest ih =>
      obtain ⟨k1, w⟩ := head
      by_cases h1 : k1 = k
      · subst h1
        simp [Params.set, Params.get?, h]
      · simp [Params.set, Params.get?, h1, ih]

/-- C1: `push(service, subscriber, params)` issues exactly one POST to route
`push` whose body is the caller's mapping with the keys `service` and
`subscriber` set to the explicit arguments, overwriting pre-existing
entries while leaving every other key unchanged; an omitted mapping yields
exactly the body `{service, subscriber}`. -/
theorem push_request_body_spec {ε : Type} (u : Uniqush) (tr : Transport ε)
    (s sb : JSVal) (p : Params) (k : String) :
    (u.push tr s sb (some p)).call.requests
      = [{ verb := .POST, url := u.endpoint ++ "/" ++ "push",
           body := some ((p.set "service" s).set "subscriber" sb) }]
  ∧ ((p.set "service" s).set "subscriber" sb).get? "service" = some s
  ∧ ((p.set "service" s).set "subscriber" sb).get? "subscriber" = some sb
  ∧ (k ≠ "service" → k ≠ "subscriber" →
      ((p.set "service" s).set "subscriber" sb).get? k = p.get? k)
  ∧ (u.push tr s sb none).call.requests
      = [{ verb := .POST, url := u.endpoint ++ "/" ++ "push",
           body := some [("service", s), ("subscriber", sb)] }] := by
  refine ⟨rfl, ?_, ?_, ?_, ?_⟩
  · rw [Params.get_set_other _ "subscriber" "service" sb (by decide),
      Params.get_set_self]
  · exact Params.get_set_self _ _ _
  · intro hk1 hk2
    rw [Params.get_set_other _ _ _ _ (Ne.symm hk2),
      Params.get_set_other _ _ _ _ (Ne.symm hk1)]
  · rfl

/-- C1 witness: a key other than `service`/`subscriber` keeps its value in
the concrete scenario `push("unicorn","dom.cobb",{title:"Hi"})`. -/
theorem push_request_body_spec_witness :
    Params.get?
      (Params.set (Params.set [("title", JSVal.str "Hi")] "service"
        (JSVal.str "unicorn")) "subscriber" (JSVal.str "dom.cobb")) "title"
      = Params.get? [("title", JSVal.str "Hi")] "title" :=
  (push_request_body_spec (Uniqush.new "http://u") (fun _ => Except.error 0)
    (JSVal.str "unicorn") (JSVal.str "dom.cobb") [("title", JSVal.str "Hi")]
    "title").2.2.2.1 (by decide) (by decide)

/-- C10: when the caller supplies a `params` object, `push` mutates that very
object in place: after the call the caller's own object carries `service` and
`subscriber` bound to the explicit arguments, and looking those keys up on it
yields the new values, so whatever it held there before is lost. -/
theorem push_mutates_caller_params {ε : Type} (u : Uniqush) (tr : Transport ε)
    (s sb : JSVal) (p : Params) :
    (u.push tr s sb (some p)).callerParams
      = some ((p.set "service" s).set "subscriber" sb)
  ∧ ((p.set "service" s).set "subscriber" sb).get? "service" = some s
  ∧ ((p.set "service" s).set "subscriber" sb).get? "subscriber" = some sb := by
  refine ⟨rfl, ?_, Params.get_set_self _ _ _⟩
  rw [Params.get_set_other _ "subscriber" "service" sb (by decide),
    Params.get_set_self]

/-- C4: each provider-add convenience operation POSTs to `addpsp` a body
holding every documented field built from the arguments with
`pushservicetype` the matching literal; an omitted APNs `sandbox` argument
produces the field value `false`; and `addGCM("unicorn","ProjId","Key1")`
sends exactly the documented body. -/
theorem add_convenience_descriptors {ε : Type} (u : Uniqush) (tr : Transport ε)
    (s pj ak ct ky ci cs sx : JSVal) :
    (u.addGCM tr s pj ak).requests
      = [{ verb := .POST, url := u.endpoint ++ "/" ++ "addpsp",
           body := some [("service", s), ("projectid", pj), ("apikey", ak),
                         ("pushservicetype", JSVal.str "gcm")] }]
  ∧ (u.addAPNs tr s ct ky sx).requests
      = [{ verb := .POST, url := u.endpoint ++ "/" ++ "addpsp",
           body := some [("service", s), ("pushservicetype", JSVal.str "apns"),
                         ("cert", ct), ("key", ky),
                         ("sandbox", jsOr sx (JSVal.bool false))] }]
  ∧ (u.addAPNs tr s ct ky JSVal.undef).reqBody.bind (fun b => b.get? "sandbox")
      = some (JSVal.bool false)
  ∧ (u.addADM tr s ci cs).requests
      = [{ verb := .POST, url := u.endpoint ++ "/" ++ "addpsp",
           body := some [("service", s), ("pushservicetype", JSVal.str "adm"),
                         ("clientid", ci), ("clientsecret", cs)] }]
  ∧ ((Uniqush.new "http://u").addGCM tr (JSVal.str "unicorn") (JSVal.str "ProjId")
        (JSVal.str "Key1")).reqBody
      = some [("service", JSVal.str "unicorn"), ("projectid", JSVal.str "ProjId"),
              ("apikey", JSVal.str "Key1"), ("pushservicetype", JSVal.str "gcm")] := by
  refine ⟨rfl, rfl, ?_, rfl, rfl⟩
  simp [Uniqush.addAPNs, Uniqush.addPSP, Uniqush.hpost, Call.reqBody,
    Params.get?, jsOr, JSVal.truthy]

theorem Params.get_set_service (q : Params) (s sb : JSVal) :
    ((q.set "service" s).set "subscriber" sb).get? "service" = some s := by
  rw [Params.get_set_other _ "subscriber" "service" sb (by decide),
    Params.get_set_self]

theorem Params.get_set_subscriber (q : Params) (s sb : JSVal) :
    ((q.set "service" s).set "subscriber" sb).get? "subscriber" = some sb :=
  Params.get_set_self _ _ _

/-- C2 counterexample: at concrete arguments the APNs remove descriptor does
not carry the same set of field names as the APNs add descriptor: `rmAPNs`
builds no `sandbox` field while `addAPNs` always does. -/
theorem rm_add_shape_counterexample :
    ¬ (((Uniqush.new "http://u").rmAPNs (fun _ => Except.error 0) (JSVal.str "s")
          (JSVal.str "c") (JSVal.str "k")).reqBody.map Params.keys
        = ((Uniqush.new "http://u").addAPNs (fun _ => Except.error 0) (JSVal.str "s")
          (JSVal.str "c") (JSVal.str "k") JSVal.undef).reqBody.map Params.keys) := by
  decide

/-- C2 amended: for GCM and ADM the remove descriptor carries the same set of
field names filled from the same arguments as the corresponding add
descriptor (for ADM the identical list, for GCM a permutation of it); for
APNs the add descriptor is exactly the remove descriptor extended with the
defaulted `sandbox` field, so the remove shape is the add shape minus that
one field. -/
theorem rm_add_shape_amended {ε : Type} (u : Uniqush) (tr : Transport ε)
    (s pj ak ci cs ct ky sx : JSVal) :
    (u.rmGCM tr s pj ak).reqBody
      = some [("service", s), ("projectid", pj), ("pushservicetype", JSVal.str "gcm"),
              ("apikey", ak)]
  ∧ (u.addGCM tr s pj ak).reqBody
      = some [("service", s), ("projectid", pj), ("apikey", ak),
              ("pushservicetype", JSVal.str "gcm")]
  ∧ List.Perm
      [("service", s), ("projectid", pj), ("pushservicetype", JSVal.str "gcm"),
       ("apikey", ak)]
      [("service", s), ("projectid", pj), ("apikey", ak),
       ("pushservicetype", JSVal.str "gcm")]
  ∧ (u.rmADM tr s ci cs).reqBody = (u.addADM tr s ci cs).reqBody
  ∧ (u.addAPNs tr s ct ky sx).reqBody
      = ((u.rmAPNs tr s ct ky).reqBody.map
          (fun b => b ++ [("sandbox", jsOr sx (JSVal.bool false))])) :=
  ⟨rfl, rfl, List.Perm.cons _ (List.Perm.cons _ (List.Perm.swap _ _ _)), rfl, rfl⟩

/-- C3 counterexample: the generic provider-management operation `addPSP`
with an arbitrary caller mapping need not send a `service` field: with the
empty mapping it issues one request whose body has no `service` key. -/
theorem service_field_counterexample :
    (((Uniqush.new "http://u").addPSP (fun _ => Except.error 0) []).requests.length = 1)
  ∧ (((Uniqush.new "http://u").addPSP (fun _ => Except.error 0) []).reqBody.bind
      (fun b => Params.get? b "service") = none) := by
  decide

/-- C3 amended: every convenience provider-management operation, every
convenience subscription operation and `push` always send a `service` field
(and `subscriber` too for the subscription operations and `push`); the
generic operations (`addPSP`, `rmPSP`, `subscribe`, `unsubscribe`) send
exactly the caller's mapping, so their descriptor carries `service`
precisely when that mapping does. -/
theorem service_field_amended {ε : Type} (u : Uniqush) (tr : Transport ε)
    (params : Params) (s sb a b c : JSVal) (p? : Option Params) :
    ((u.addGCM tr s a b).reqBody.bind (fun d => Params.get? d "service") = some s)
  ∧ ((u.addAPNs tr s a b c).reqBody.bind (fun d => Params.get? d "service") = some s)
  ∧ ((u.addADM tr s a b).reqBody.bind (fun d => Params.get? d "service") = some s)
  ∧ ((u.rmGCM tr s a b).reqBody.bind (fun d => Params.get? d "service") = some s)
  ∧ ((u.rmAPNs tr s a b).reqBody.bind (fun d => Params.get? d "service") = some s)
  ∧ ((u.rmADM tr s a b).reqBody.bind (fun d => Params.get? d "service") = some s)
  ∧ ((u.subscribeGCM tr s sb a).reqBody.bind (fun d => Params.get? d "service") = some s
      ∧ (u.subscribeGCM tr s sb a).reqBody.bind (fun d => Params.get? d "subscriber") = some sb)
  ∧ ((u.subscribeAPNs tr s sb a).reqBody.bind (fun d => Params.get? d "service") = some s
      ∧ (u.subscribeAPNs tr s sb a).reqBody.bind (fun d => Params.get? d "subscriber") = some sb)
  ∧ ((u.subscribeADM tr s sb a).reqBody.bind (fun d => Params.get? d "service") = some s
      ∧ (u.subscribeADM tr s sb a).reqBody.bind (fun d => Params.get? d "subscriber") = some sb)
  ∧ ((u.unsubscribeGCM tr s sb a).reqBody.bind (fun d => Params.get? d "service") = some s
      ∧ (u.unsubscribeGCM tr s sb a).reqBody.bind (fun d => Params.get? d "subscriber") = some sb)
  ∧ ((u.unsubscribeAPNs tr s sb a).reqBody.bind (fun d => Params.get? d "service") = some s
      ∧ (u.unsubscribeAPNs tr s sb a).reqBody.bind (fun d => Params.get? d "subscriber") = some sb)
  ∧ ((u.unsubscribeADM tr s sb a).reqBody.bind (fun d => Params.get? d "service") = some s
      ∧ (u.unsubscribeADM tr s sb a).reqBody.bind (fun d => Params.get? d "subscriber") = some sb)
  ∧ ((u.push tr s sb p?).call.reqBody.bind (fun d => Params.get? d "service") = some s
      ∧ (u.push tr s sb p?).call.reqBody.bind (fun d => Params.get? d "subscriber") = some sb)
  ∧ ((u.addPSP tr params).reqBody = some params)
  ∧ ((u.rmPSP tr params).reqBody = some params)
  ∧ ((u.subscribe tr params).reqBody = some params)
  ∧ ((u.unsubscribe tr params).reqBody = some params) := by
  refine ⟨rfl, rfl, rfl, rfl, rfl, rfl, ⟨rfl, rfl⟩, ⟨rfl, rfl⟩, ⟨rfl, rfl⟩,
    ⟨rfl, rfl⟩, ⟨rfl, rfl⟩, ⟨rfl, rfl⟩, ⟨?_, ?_⟩, rfl, rfl, rfl, rfl⟩
  · exact Params.get_set_service _ _ _
  · exact Params.get_set_subscriber _ _ _

/-- C7: each subscribe/unsubscribe convenience operation sends a descriptor
holding exactly `service`, the `pushservicetype` literal, `subscriber` and
the provider token field (`regid` for GCM and ADM, `devtoken` for APNs),
each bound to the caller's value unchanged. -/
theorem subscription_descriptors_exact {ε : Type} (u : Uniqush) (tr : Transport ε)
    (s sb tok : JSVal) :
    (u.subscribeGCM tr s sb tok).reqBody
      = some [("service", s), ("pushservicetype", JSVal.str "gcm"),
              ("subscriber", sb), ("regid", tok)]
  ∧ (u.subscribeAPNs tr s sb tok).reqBody
      = some [("service", s), ("pushservicetype", JSVal.str "apns"),
              ("subscriber", sb), ("devtoken", tok)]
  ∧ (u.subscribeADM tr s sb tok).reqBody
      = some [("service", s), ("pushservicetype", JSVal.str "adm"),
              ("subscriber", sb), ("regid", tok)]
  ∧ (u.unsubscribeGCM tr s sb tok).reqBody
      = some [("service", s), ("pushservicetype", JSVal.str "gcm"),
              ("subscriber", sb), ("regid", tok)]
  ∧ (u.unsubscribeAPNs tr s sb tok).reqBody
      = some [("service", s), ("pushservicetype", JSVal.str "apns"),
              ("subscriber", sb), ("devtoken", tok)]
  ∧ (u.unsubscribeADM tr s sb tok).reqBody
      = some [("service", s), ("pushservicetype", JSVal.str "adm"),
              ("subscriber", sb), ("regid", tok)] :=
  ⟨rfl, rfl, rfl, rfl, rfl, rfl⟩

/-- C8: the generic operations POST the caller's mapping unchanged as the
body, to routes `addpsp`, `rmpsp`, `subscribe` and `unsubscribe`
respectively. -/
theorem generic_passthrough {ε : Type} (u : Uniqush) (tr : Transport ε)
    (params : Params) :
    (u.addPSP tr params).requests
      = [{ verb := .POST, url := u.endpoint ++ "/" ++ "addpsp", body := some params }]
  ∧ (u.rmPSP tr params).requests
      = [{ verb := .POST, url := u.endpoint ++ "/" ++ "rmpsp", body := some params }]
  ∧ (u.subscribe tr params).requests
      = [{ verb := .POST, url := u.endpoint ++ "/" ++ "subscribe", body := some params }]
  ∧ (u.unsubscribe tr params).requests
      = [{ verb := .POST, url := u.endpoint ++ "/" ++ "unsubscribe", body := some params }] :=
  ⟨rfl, rfl, rfl, rfl⟩

/-- C5: every public operation issues exactly one outbound request, to its
fixed route and verb — GET for `version` and `stop`, POST for the `addpsp`,
`rmpsp`, `subscribe`, `unsubscribe` and `push` routes — whatever the
arguments; the singleton request list does not depend on the transport's
outcome, so no second request or retry ever occurs. -/
theorem one_request_per_operation {ε : Type} (u : Uniqush) (tr : Transport ε)
    (params : Params) (s sb a b c : JSVal) (p? : Option Params) :
    (u.version tr).verbUrls = [(.GET, u.endpoint ++ "/" ++ "version")]
  ∧ (u.stop tr).verbUrls = [(.GET, u.endpoint ++ "/" ++ "stop")]
  ∧ (u.addPSP tr params).verbUrls = [(.POST, u.endpoint ++ "/" ++ "addpsp")]
  ∧ (u.addGCM tr s a b).verbUrls = [(.POST, u.endpoint ++ "/" ++ "addpsp")]
  ∧ (u.addAPNs tr s a b c).verbUrls = [(.POST, u.endpoint ++ "/" ++ "addpsp")]
  ∧ (u.addADM tr s a b).verbUrls = [(.POST, u.endpoint ++ "/" ++ "addpsp")]
  ∧ (u.rmPSP tr params).verbUrls = [(.POST, u.endpoint ++ "/" ++ "rmpsp")]
  ∧ (u.rmGCM tr s a b).verbUrls = [(.POST, u.endpoint ++ "/" ++ "rmpsp")]
  ∧ (u.rmAPNs tr s a b).verbUrls = [(.POST, u.endpoint ++ "/" ++ "rmpsp")]
  ∧ (u.rmADM tr s a b).verbUrls = [(.POST, u.endpoint ++ "/" ++ "rmpsp")]
  ∧ (u.subscribe tr params).verbUrls = [(.POST, u.endpoint ++ "/" ++ "subscribe")]
  ∧ (u.subscribeGCM tr s sb a).verbUrls = [(.POST, u.endpoint ++ "/" ++ "subscribe")]
  ∧ (u.subscribeAPNs tr s sb a).verbUrls = [(.POST, u.endpoint ++ "/" ++ "subscribe")]
  ∧ (u.subscribeADM tr s sb a).verbUrls = [(.POST, u.endpoint ++ "/" ++ "subscribe")]
  ∧ (u.unsubscribe tr params).verbUrls = [(.POST, u.endpoint ++ "/" ++ "unsubscribe")]
  ∧ (u.unsubscribeGCM tr s sb a).verbUrls = [(.POST, u.endpoint ++ "/" ++ "unsubscribe")]
  ∧ (u.unsubscribeAPNs tr s sb a).verbUrls = [(.POST, u.endpoint ++ "/" ++ "unsubscribe")]
  ∧ (u.unsubscribeADM tr s sb a).verbUrls = [(.POST, u.endpoint ++ "/" ++ "unsubscribe")]
  ∧ (u.push tr s sb p?).call.verbUrls = [(.POST, u.endpoint ++ "/" ++ "push")] :=
  ⟨rfl, rfl, rfl, rfl, rfl, rfl, rfl, rfl, rfl, rfl, rfl, rfl, rfl, rfl, rfl,
   rfl, rfl, rfl, rfl⟩

/-- C6: when the transport rejects, every operation's returned result is
that same rejection, unmodified; when the transport fulfills, every
operation resolves with exactly the response's body string. -/
theorem transport_outcome_propagation {ε : Type} (u : Uniqush)
    (params : Params) (s sb a b c : JSVal) (p? : Option Params) :
    (∀ (e : ε) (tr : Transport ε), (∀ req, tr req = Except.error e) →
        (u.version tr).result = Except.error e
      ∧ (u.stop tr).result = Except.error e
      ∧ (u.addPSP tr params).result = Except.error e
      ∧ (u.addGCM tr s a b).result = Except.error e
      ∧ (u.addAPNs tr s a b c).result = Except.error e
      ∧ (u.addADM tr s a b).result = Except.error e
      ∧ (u.rmPSP tr params).result = Except.error e
      ∧ (u.rmGCM tr s a b).result = Except.error e
      ∧ (u.rmAPNs tr s a b).result = Except.error e
      ∧ (u.rmADM tr s a b).result = Except.error e
      ∧ (u.subscribe tr params).result = Except.error e
      ∧ (u.subscribeGCM tr s sb a).result = Except.error e
      ∧ (u.subscribeAPNs tr s sb a).result = Except.error e
      ∧ (u.subscribeADM tr s sb a).result = Except.error e
      ∧ (u.unsubscribe tr params).result = Except.error e
      ∧ (u.unsubscribeGCM tr s sb a).result = Except.error e
      ∧ (u.unsubscribeAPNs tr s sb a).result = Except.error e
      ∧ (u.unsubscribeADM tr s sb a).result = Except.error e
      ∧ (u.push tr s sb p?).call.result = Except.error e)
  ∧ (∀ (bdy : String) (tr : Transport ε), (∀ req, tr req = Except.ok ⟨bdy⟩) →
        (u.version tr).result = Except.ok bdy
      ∧ (u.stop tr).result = Except.ok bdy
      ∧ (u.addPSP tr params).result = Except.ok bdy
      ∧ (u.addGCM tr s a b).result = Except.ok bdy
      ∧ (u.addAPNs tr s a b c).result = Except.ok bdy
      ∧ (u.addADM tr s a b).result = Except.ok bdy
      ∧ (u.rmPSP tr params).result = Except.ok bdy
      ∧ (u.rmGCM tr s a b).result = Except.ok bdy
      ∧ (u.rmAPNs tr s a b).result = Except.ok bdy
      ∧ (u.rmADM tr s a b).result = Except.ok bdy
      ∧ (u.subscribe tr params).result = Except.ok bdy
      ∧ (u.subscribeGCM tr s sb a).result = Except.ok bdy
      ∧ (u.subscribeAPNs tr s sb a).result = Except.ok bdy
      ∧ (u.subscribeADM tr s sb a).result = Except.ok bdy
      ∧ (u.unsubscribe tr params).result = Except.ok bdy
      ∧ (u.unsubscribeGCM tr s sb a).result = Except.ok bdy
      ∧ (u.unsubscribeAPNs tr s sb a).result = Except.ok bdy
      ∧ (u.unsubscribeADM tr s sb a).result = Except.ok bdy
      ∧ (u.push tr s sb p?).call.result = Except.ok bdy) := by
  constructor
  · intro e tr h
    simp only [Uniqush.version, Uniqush.stop, Uniqush.addPSP, Uniqush.addGCM,
      Uniqush.addAPNs, Uniqush.addADM, Uniqush.rmPSP, Uniqush.rmGCM,
      Uniqush.rmAPNs, Uniqush.rmADM, Uniqush.subscribe, Uniqush.subscribeGCM,
      Uniqush.subscribeAPNs, Uniqush.subscribeADM, Uniqush.unsubscribe,
      Uniqush.unsubscribeGCM, Uniqush.unsubscribeAPNs, Uniqush.unsubscribeADM,
      Uniqush.push, Uniqush.hget, Uniqush.hpost, thenBody, h]
    simp [Except.map]
  · intro bdy tr h
    simp only [Uniqush.version, Uniqush.stop, Uniqush.addPSP, Uniqush.addGCM,
      Uniqush.addAPNs, Uniqush.addADM, Uniqush.rmPSP, Uniqush.rmGCM,
      Uniqush.rmAPNs, Uniqush.rmADM, Uniqush.subscribe, Uniqush.subscribeGCM,
      Uniqush.subscribeAPNs, Uniqush.subscribeADM, Uniqush.unsubscribe,
      Uniqush.unsubscribeGCM, Uniqush.unsubscribeAPNs, Uniqush.unsubscribeADM,
      Uniqush.push, Uniqush.hget, Uniqush.hpost, thenBody, h]
    simp [Except.map]

/-- C6 witness: with a transport that always rejects with error `7`, `stop`
rejects with `7`; with one that always fulfills with body `"ok"`, `stop`
resolves with `"ok"`. -/
theorem transport_outcome_propagation_witness :
    ((Uniqush.new "http://u").stop (fun _ => Except.error 7)).result = Except.error 7
  ∧ ((Uniqush.new "http://u").stop
      (fun _ => (Except.ok ⟨"ok"⟩ : Except Nat Response))).result = Except.ok "ok" :=
  ⟨((transport_outcome_propagation (Uniqush.new "http://u") [] .undef .undef
      .undef .undef .undef none).1 7 (fun _ => Except.error 7) (fun _ => rfl)).2.1,
   ((transport_outcome_propagation (Uniqush.new "http://u") [] .undef .undef
      .undef .undef .undef none).2 "ok" (fun _ => Except.ok ⟨"ok"⟩) (fun _ => rfl)).2.1⟩

/-- C9: the constructor stores the endpoint string verbatim; every public
operation leaves the client object — hence the stored endpoint — unchanged;
and both request primitives build the URL as the stored endpoint, `'/'`,
then the route segment, so every issued request URL has that shape. -/
theorem endpoint_verbatim_immutable {ε : Type} (ep : String) (u : Uniqush)
    (tr : Transport ε) (params : Params) (s sb a b c : JSVal) (p? : Option Params) :
    (Uniqush.new ep).endpoint = ep
  ∧ (u.version tr).self = u
  ∧ (u.stop tr).self = u
  ∧ (u.addPSP tr params).self = u
  ∧ (u.addGCM tr s a b).self = u
  ∧ (u.addAPNs tr s a b c).self = u
  ∧ (u.addADM tr s a b).self = u
  ∧ (u.rmPSP tr params).self = u
  ∧ (u.rmGCM tr s a b).self = u
  ∧ (u.rmAPNs tr s a b).self = u
  ∧ (u.rmADM tr s a b).self = u
  ∧ (u.subscribe tr params).self = u
  ∧ (u.subscribeGCM tr s sb a).self = u
  ∧ (u.subscribeAPNs tr s sb a).self = u
  ∧ (u.subscribeADM tr s sb a).self = u
  ∧ (u.unsubscribe tr params).self = u
  ∧ (u.unsubscribeGCM tr s sb a).self = u
  ∧ (u.unsubscribeAPNs tr s sb a).self = u
  ∧ (u.unsubscribeADM tr s sb a).self = u
  ∧ (u.push tr s sb p?).call.self = u
  ∧ (∀ (route : String) (bdy : Params),
      (u.hpost tr route bdy).1.url = u.endpoint ++ "/" ++ route)
  ∧ (∀ route : String, (u.hget tr route).1.url = u.endpoint ++ "/" ++ route) :=
  ⟨rfl, rfl, rfl, rfl, rfl, rfl, rfl, rfl, rfl, rfl, rfl, rfl, rfl, rfl, rfl,
   rfl, rfl, rfl, rfl, rfl, fun _ _ => rfl, fun _ => rfl⟩
